import Mathlib

/-
Verification of the Task Orchestration & Streaming Protocol Engine
(a2a-example repository) against its natural-language specification.

The data model and the operations below are a shallow embedding of the
TypeScript source: `tasks.ts` (applyUpdateToTaskAndHistory and the event
constructors), `server.ts` (loadOrCreateTaskAndHistory, taskSendSubscribe,
taskCancel) and `jsonrpc.ts` (isValidJsonRpcRequest).  JavaScript objects
become structures, `undefined`/`null`-able fields become `Option`s,
exceptions become explicit outcome values, and the wall clock
(`getCurrentTimestamp`) becomes an explicit `Nat` parameter threaded to
every call site that stamps a status.
-/

namespace A2A

/-- Task lifecycle states (schema.TaskState). The schema file itself is not
part of the staged sources; the states are the six named by the spec's
lifecycle section and used literally throughout the server code. -/
inductive TaskState where
  | submitted
  | working
  | inputRequired
  | completed
  | failed
  | canceled
  deriving DecidableEq, Repr

/-- Message author role (schema.Message.role). -/
inductive Role where
  | user
  | agent
  deriving DecidableEq, Repr

/-- One content part of a message or artifact.  Modelled from the spec:
schema.ts is not among the staged sources; parts are payload carried around
whole by the engine, so the `type` tag and text body suffice. -/
structure Part where
  type : String
  text : String
  deriving DecidableEq, Repr

/-- schema.Message: a role plus ordered content parts.  Messages are moved
around whole by the engine, never inspected beyond `role`. -/
structure Message where
  role : Role
  parts : List Part
  deriving DecidableEq, Repr

/-- Free-form metadata maps, as association lists of string keys. -/
abbrev Metadata := List (String × String)

/-- schema.Artifact, with every field the merge algorithm reads or writes.
`none` stands for a JavaScript `undefined` field. -/
structure Artifact where
  name : Option String := none
  description : Option String := none
  parts : List Part := []
  index : Option Int := none
  append : Option Bool := none
  lastChunk : Option Bool := none
  metadata : Option Metadata := none
  deriving DecidableEq, Repr

/-- schema.TaskStatus.  `timestamp` is a `Nat` clock value; the engine sets
it from the clock parameter standing for getCurrentTimestamp().  `message`
is `none` for both an absent and a `null` message (the stored forms are not
distinguished by any reader). -/
structure TaskStatus where
  state : TaskState
  timestamp : Nat
  message : Option Message
  deriving DecidableEq, Repr

/-- A status update as handlers and the server produce it:
`Omit<schema.TaskStatus, 'timestamp'>`.  The `message` field distinguishes a
JavaScript object without the key (`none`), the key set to `null`
(`some none`) and the key set to a message (`some (some m)`), because the
spread-merge in the code treats the three differently. -/
structure StatusUpdate where
  state : TaskState
  message : Option (Option Message) := none
  deriving DecidableEq, Repr

/-- schema.Task. -/
structure Task where
  id : String
  sessionId : Option String := none
  status : TaskStatus
  artifacts : Option (List Artifact) := none
  metadata : Metadata := []
  deriving DecidableEq, Repr

/-- store.ts TaskAndHistory: the atomic snapshot unit. -/
structure TaskAndHistory where
  task : Task
  history : List Message
  deriving DecidableEq, Repr

/-- The unit a handler yields.  The source disambiguates the union
`Omit<TaskStatus,'timestamp'> | Artifact` structurally through
isTaskStatusUpdate / isArtifactUpdate (utils.ts, not among the staged
sources).  Modelled from the spec: updates are "tagged by shape …
disambiguated structurally (presence of `state` vs `parts`+absence of
`state`)", which on the typed union is exactly this tagged variant. -/
inductive Update where
  | status (u : StatusUpdate)
  | artifact (a : Artifact)
  deriving DecidableEq, Repr

/-- JavaScript object-spread merge of two metadata maps: every key of `new_`
wins over `old`.  (Key order is not observable anywhere in the engine.) -/
def mergeMetadata (old new_ : Metadata) : Metadata :=
  old.filter (fun p => ¬ new_.any (fun q => q.1 = p.1)) ++ new_

/-- The `update.append` branch of the artifact case of
applyUpdateToTaskAndHistory (tasks.ts): deep-copy the existing artifact,
concatenate the update's parts, merge metadata (update keys win), overwrite
`lastChunk` when the update has the key (`!== undefined`), overwrite
`description` when the update's value is truthy (a non-empty string). -/
def appendToArtifact (existingArtifact update : Artifact) : Artifact :=
  { existingArtifact with
    parts := existingArtifact.parts ++ update.parts
    metadata :=
      match update.metadata with
      | some m => some (mergeMetadata (existingArtifact.metadata.getD []) m)
      | none => existingArtifact.metadata
    lastChunk :=
      match update.lastChunk with
      | some b => some b
      | none => existingArtifact.lastChunk
    description :=
      match update.description with
      | some d => if d = "" then existingArtifact.description else some d
      | none => existingArtifact.description }

/-- The comparator `(a.index ?? 0) - (b.index ?? 0)` of the artifact sort,
as the ordering it induces: ascending by index, a missing index comparing
as 0. -/
def artifactLE (a b : Artifact) : Prop := a.index.getD 0 ≤ b.index.getD 0

instance : DecidableRel artifactLE := fun _ _ => Int.decLe _ _

instance : IsTotal Artifact artifactLE := ⟨fun _ _ => Int.le_total _ _⟩

instance : IsTrans Artifact artifactLE := ⟨fun _ _ _ h1 h2 => le_trans h1 h2⟩

/-- The push-then-maybe-sort tail of the artifact case (tasks.ts): the update
is pushed as a new artifact and, if any artifact in the list now carries an
index, the whole list is sorted ascending by index with a missing index
comparing as 0.  Array.prototype.sort is a stable sort, and the stable
sorted permutation of a list is unique, so the stable `List.insertionSort`
models it exactly. -/
def pushNewArtifact (artifacts : List Artifact) (update : Artifact) : List Artifact :=
  let pushed := artifacts ++ [update]
  if pushed.any (fun a => a.index.isSome) then
    pushed.insertionSort artifactLE
  else
    pushed

/-- The artifact branch of applyUpdateToTaskAndHistory (tasks.ts).
`existingIndex = update.index ?? -1`; an in-bounds index targets that array
slot (append or wholesale overwrite); otherwise a truthy `update.name` is
looked up among the artifacts' names and the first match is overwritten;
otherwise the update is pushed as a new artifact (with the index sort). -/
def applyArtifactUpdate (artifacts : List Artifact) (update : Artifact) : List Artifact :=
  let existingIndex : Int := update.index.getD (-1)
  if h : 0 ≤ existingIndex ∧ existingIndex.toNat < artifacts.length then
    let existingArtifact := artifacts.get ⟨existingIndex.toNat, h.2⟩
    if update.append.getD false then
      artifacts.set existingIndex.toNat (appendToArtifact existingArtifact update)
    else
      artifacts.set existingIndex.toNat update
  else
    match update.name with
    | some updateName =>
      if updateName = "" then
        pushNewArtifact artifacts update
      else
        match artifacts.findIdx? (fun a => a.name = some updateName) with
        | some namedIndex => artifacts.set namedIndex update
        | none => pushNewArtifact artifacts update
    | none => pushNewArtifact artifacts update

/-- tasks.ts applyUpdateToTaskAndHistory.  `now` is the value
getCurrentTimestamp() returns during the call.  The status branch
spread-merges the update onto the existing status (fields of the update
win; a `message` key that is absent keeps the existing message), stamps
`timestamp := now`, and appends the update's message to history exactly
when that message exists and has role agent.  The artifact branch rebuilds
the artifacts array through `applyArtifactUpdate`. -/
def applyUpdateToTaskAndHistory (now : Nat) (current : TaskAndHistory) (update : Update) :
    TaskAndHistory :=
  match update with
  | .status u =>
    let newStatus : TaskStatus :=
      { state := u.state
        timestamp := now
        message :=
          match u.message with
          | some m => m
          | none => current.task.status.message }
    let newHistory :=
      match u.message with
      | some (some m) => if m.role = Role.agent then current.history ++ [m] else current.history
      | _ => current.history
    { task := { current.task with status := newStatus }, history := newHistory }
  | .artifact a =>
    let newArtifacts := applyArtifactUpdate (current.task.artifacts.getD []) a
    { task := { current.task with artifacts := some newArtifacts }, history := current.history }

/-- The state sets the server compares against.  `finalStates` is the
terminal set of loadOrCreateTaskAndHistory and taskCancel (server code,
`['completed', 'failed', 'canceled']`). -/
def finalStates : List TaskState := [.completed, .failed, .canceled]

/-- The stream-terminal set of taskSendSubscribe
(`['completed', 'failed', 'canceled', 'input-required']`). -/
def streamTerminalStates : List TaskState :=
  [.completed, .failed, .canceled, .inputRequired]

/-- `finalStates.includes(state)`. -/
def isFinalState (s : TaskState) : Bool := s ∈ finalStates

/-- `terminalStates.includes(state)` inside taskSendSubscribe. -/
def isStreamFinalState (s : TaskState) : Bool := s ∈ streamTerminalStates

/-- An outbound server-sent event: schema.TaskStatusUpdateEvent or
schema.TaskArtifactUpdateEvent, both `{id, …, final}`. -/
inductive StreamEvent where
  | statusEvent (id : String) (status : TaskStatus) (final : Bool)
  | artifactEvent (id : String) (artifact : Artifact) (final : Bool)
  deriving DecidableEq, Repr

/-- tasks.ts createTaskStatusEvent. -/
def createTaskStatusEvent (taskId : String) (status : TaskStatus) (final : Bool) :
    StreamEvent :=
  .statusEvent taskId status final

/-- tasks.ts createTaskArtifactEvent. -/
def createTaskArtifactEvent (taskId : String) (artifact : Artifact) (final : Bool) :
    StreamEvent :=
  .artifactEvent taskId artifact final

/-- The `final` flag of an outbound event. -/
def StreamEvent.final : StreamEvent → Bool
  | .statusEvent _ _ f => f
  | .artifactEvent _ _ f => f

/-- What one run of the taskSendSubscribe stream body produces: the final
snapshot, the outbound events in order, the `lastEventWasFinal` flag, every
snapshot passed to taskStore.save in order, and the clock after the run. -/
structure StreamRun where
  data : TaskAndHistory
  events : List StreamEvent
  lastEventWasFinal : Bool
  saves : List TaskAndHistory
  clock : Nat
  deriving DecidableEq, Repr

/-- The artifact lookup taskSendSubscribe performs before emitting an
artifact event: the first artifact whose defined index equals the update's,
or whose truthy name equals the update's, with the update itself as
fallback. -/
def findUpdatedArtifact (artifacts : List Artifact) (update : Artifact) : Artifact :=
  (artifacts.find? (fun a =>
      (a.index.isSome ∧ a.index = update.index) ∨
      (a.name.getD "" ≠ "" ∧ a.name = update.name))).getD update

/-- The `for await` drain loop of taskSendSubscribe (server code): each
yielded update is applied, the snapshot saved, and an event emitted — a
status event is final iff the post-update state is stream-terminal, an
artifact event is never final — and the loop breaks as soon as a final
event has been sent.  The handler is a finite yield sequence; the clock
advances by one per applied update. -/
def taskSendSubscribeLoop (taskId : String) :
    Nat → TaskAndHistory → List Update → StreamRun
  | clock, data, [] =>
    { data := data, events := [], lastEventWasFinal := false, saves := [], clock := clock }
  | clock, data, u :: rest =>
    let newData := applyUpdateToTaskAndHistory clock data u
    match u with
    | .status _ =>
      let isFinal := isStreamFinalState newData.task.status.state
      let ev := createTaskStatusEvent taskId newData.task.status isFinal
      if isFinal then
        { data := newData, events := [ev], lastEventWasFinal := true,
          saves := [newData], clock := clock + 1 }
      else
        let r := taskSendSubscribeLoop taskId (clock + 1) newData rest
        { r with events := ev :: r.events, saves := newData :: r.saves }
    | .artifact a =>
      let updatedArtifact := findUpdatedArtifact (newData.task.artifacts.getD []) a
      let ev := createTaskArtifactEvent taskId updatedArtifact false
      let r := taskSendSubscribeLoop taskId (clock + 1) newData rest
      { r with events := ev :: r.events, saves := newData :: r.saves }

/-- The full taskSendSubscribe stream body for a handler that runs to
completion: drain the yield sequence, and if no final event was ever sent,
force-finalize — when the task's state is not stream-terminal, apply and
save a synthetic `{state: completed}` transition — then emit one final
status event carrying whatever status the task ends in. -/
def taskSendSubscribeRun (taskId : String) (clock : Nat) (data : TaskAndHistory)
    (updates : List Update) : StreamRun :=
  let r := taskSendSubscribeLoop taskId clock data updates
  if r.lastEventWasFinal then r
  else if isStreamFinalState r.data.task.status.state then
    { r with
      events := r.events ++ [createTaskStatusEvent taskId r.data.task.status true]
      lastEventWasFinal := true }
  else
    let forced :=
      applyUpdateToTaskAndHistory r.clock r.data (.status { state := .completed, message := none })
    { data := forced
      events := r.events ++ [createTaskStatusEvent taskId forced.task.status true]
      lastEventWasFinal := true
      saves := r.saves ++ [forced]
      clock := r.clock + 1 }

/-- The task store (store.ts TaskStore contract) as a key-to-snapshot
association list. -/
abbrev TaskStoreMap := List (String × TaskAndHistory)

/-- TaskStore.load. -/
def storeLoad (store : TaskStoreMap) (taskId : String) : Option TaskAndHistory :=
  (store.find? (fun p => p.1 = taskId)).map (fun p => p.2)

/-- TaskStore.save: overwrites the entry keyed by the snapshot's task id, or
adds one. -/
def storeSave (store : TaskStoreMap) (data : TaskAndHistory) : TaskStoreMap :=
  if store.any (fun p => p.1 = data.task.id) then
    store.map (fun p => if p.1 = data.task.id then (p.1, data) else p)
  else
    store ++ [(data.task.id, data)]

/-- server code loadOrCreateTaskAndHistory.  An unseen id creates a fresh
submitted task with the incoming message as its whole history.  An existing
task gets the message appended to history unconditionally; a terminal state
is reset to submitted with the status message cleared
(`{state:'submitted', message:null}`), input-required transitions to
working, other states are left alone.  Every branch saves before returning.
Returns the snapshot and the store after the save. -/
def loadOrCreateTaskAndHistory (now : Nat) (store : TaskStoreMap) (taskId : String)
    (initialMessage : Message) (sessionId : Option String) (metadata : Option Metadata) :
    TaskAndHistory × TaskStoreMap :=
  match storeLoad store taskId with
  | none =>
    let initialTask : Task :=
      { id := taskId
        sessionId := sessionId
        status := { state := .submitted, timestamp := now, message := none }
        artifacts := some []
        metadata := metadata.getD [] }
    let data : TaskAndHistory := { task := initialTask, history := [initialMessage] }
    (data, storeSave store data)
  | some loaded =>
    let appended : TaskAndHistory :=
      { task := loaded.task, history := loaded.history ++ [initialMessage] }
    let data :=
      if isFinalState appended.task.status.state then
        applyUpdateToTaskAndHistory now appended
          (.status { state := .submitted, message := some none })
      else if appended.task.status.state = .inputRequired then
        applyUpdateToTaskAndHistory now appended
          (.status { state := .working, message := none })
      else appended
    (data, storeSave store data)

/-- The shared mutable state taskCancel touches: the task store and the
cancellation-flag set (ActiveCancellationsStore). -/
structure CancelWorld where
  store : TaskStoreMap
  activeCancellations : List String
  deriving DecidableEq, Repr

/-- What taskCancel resolves to.  `success` is the terminal-state no-op path
(it returns the loaded task unchanged); `successData` is the normal path
(the source returns the whole updated snapshot there); `taskNotFound` is the
thrown A2AError; `saveFailed` is a taskStore.save rejection propagating out
of the method. -/
inductive CancelOutcome where
  | success (task : Task)
  | successData (data : TaskAndHistory)
  | taskNotFound (taskId : String)
  | saveFailed
  deriving DecidableEq, Repr

/-- ActiveCancellationsStore.add (redis SADD: no duplicate membership). -/
def cancellationsAdd (s : List String) (taskId : String) : List String :=
  if taskId ∈ s then s else s ++ [taskId]

/-- ActiveCancellationsStore.delete (redis SREM). -/
def cancellationsDelete (s : List String) (taskId : String) : List String :=
  s.filter (fun x => x ≠ taskId)

/-- The fixed cancellation message taskCancel applies. -/
def taskCancelMessage : Message :=
  { role := .agent, parts := [{ type := "text", text := "Task canceled by request." }] }

/-- server code taskCancel.  `saveOk` says whether the one taskStore.save
call succeeds; when it rejects, the exception propagates immediately, so the
statements after it — in particular activeCancellations.delete — do not
run.  A missing task throws TaskNotFound; a task already in a terminal
state returns unchanged without touching the store or the flag set. -/
def taskCancel (saveOk : Bool) (now : Nat) (taskId : String) (w : CancelWorld) :
    CancelOutcome × CancelWorld :=
  match storeLoad w.store taskId with
  | none => (.taskNotFound taskId, w)
  | some data =>
    if isFinalState data.task.status.state then
      (.success data.task, w)
    else
      let w1 : CancelWorld :=
        { w with activeCancellations := cancellationsAdd w.activeCancellations taskId }
      let newData := applyUpdateToTaskAndHistory now data
        (.status { state := .canceled, message := some (some taskCancelMessage) })
      if saveOk then
        let w2 : CancelWorld := { w1 with store := storeSave w1.store newData }
        let w3 : CancelWorld :=
          { w2 with activeCancellations := cancellationsDelete w2.activeCancellations taskId }
        (.successData newData, w3)
      else
        (.saveFailed, w1)

/-- A JSON value as the JSON-RPC endpoint receives it after body parsing. -/
inductive JsonValue where
  | nullV
  | boolV (b : Bool)
  | numV (n : Int)
  | strV (s : String)
  | arrV (items : List JsonValue)
  | objV (fields : List (String × JsonValue))

/-- Property access `body.key`: `none` is JavaScript `undefined`.  Only
plain objects carry the named properties the validator reads. -/
def getField : JsonValue → String → Option JsonValue
  | .objV fields, key => (fields.find? (fun p => p.1 = key)).map (fun p => p.2)
  | _, _ => none

/-- `typeof body === 'object' && body !== null`. -/
def isJsObjectNonNull : JsonValue → Bool
  | .objV _ => true
  | .arrV _ => true
  | _ => false

/-- `typeof v === 'object'`: true for null, arrays and objects. -/
def jsTypeIsObject : JsonValue → Bool
  | .nullV => true
  | .arrV _ => true
  | .objV _ => true
  | _ => false

/-- `body.jsonrpc === '2.0'`. -/
def jsonrpcIsTwoPointZero : Option JsonValue → Bool
  | some (.strV s) => s = "2.0"
  | _ => false

/-- `typeof body.method === 'string'`. -/
def isJsonString : Option JsonValue → Bool
  | some (.strV _) => true
  | _ => false

/-- `body.id === null || typeof body.id === 'string' || typeof body.id === 'number'`. -/
def isValidRequestId : Option JsonValue → Bool
  | some .nullV => true
  | some (.strV _) => true
  | some (.numV _) => true
  | _ => false

/-- `body.params === undefined || typeof body.params === 'object' ||
Array.isArray(body.params)` — the Array.isArray disjunct is subsumed by the
typeof check, which also admits `null`. -/
def isValidParams : Option JsonValue → Bool
  | none => true
  | some v => jsTypeIsObject v

/-- jsonrpc.ts isValidJsonRpcRequest, clause for clause. -/
def isValidJsonRpcRequest (body : JsonValue) : Bool :=
  isJsObjectNonNull body &&
  jsonrpcIsTwoPointZero (getField body "jsonrpc") &&
  isJsonString (getField body "method") &&
  isValidRequestId (getField body "id") &&
  isValidParams (getField body "params")

/-! ### Derived predicates the claims speak about -/

/-- The artifacts-list ordering invariant the spec states: ascending by
index, an absent index ordering as 0. -/
def SortedByIndex (l : List Artifact) : Prop := l.Pairwise artifactLE

/-- Whether the artifact-resolution order of applyUpdateToTaskAndHistory
finds a slot to replace: an in-bounds `index`, or else a truthy `name`
carried by some artifact.  `false` is exactly the "treat as new, push and
maybe sort" case. -/
def artifactHasTarget (artifacts : List Artifact) (update : Artifact) : Bool :=
  decide (0 ≤ update.index.getD (-1) ∧ (update.index.getD (-1)).toNat < artifacts.length) ||
  (match update.name with
   | some updateName =>
     decide (updateName ≠ "") && (artifacts.findIdx? (fun a => a.name = some updateName)).isSome
   | none => false)

/-- The acceptance condition claim C4 states, following the claim's words
(for the refutation): version tag `2.0`, a NON-EMPTY string method, an id
that is a string, number or null, and params, when present, an object or an
array and not a primitive value. -/
def claimC4Accepts (body : JsonValue) : Prop :=
  jsonrpcIsTwoPointZero (getField body "jsonrpc") = true ∧
  (∃ s, getField body "method" = some (.strV s) ∧ s ≠ "") ∧
  isValidRequestId (getField body "id") = true ∧
  (∀ v, getField body "params" = some v →
    (∃ fields, v = .objV fields) ∨ (∃ items, v = .arrV items))

/-- What isValidJsonRpcRequest actually accepts, spelled out: a non-null
object whose version tag is `2.0`, whose method is any string (the empty
string included), whose id is a string, a number or null, and whose params
is absent or of JavaScript object type — an object, an array, or null. -/
def amendedValidRequest (body : JsonValue) : Prop :=
  isJsObjectNonNull body = true ∧
  getField body "jsonrpc" = some (.strV "2.0") ∧
  (∃ s, getField body "method" = some (.strV s)) ∧
  (getField body "id" = some .nullV ∨
    (∃ s, getField body "id" = some (.strV s)) ∨
    (∃ n, getField body "id" = some (.numV n))) ∧
  (getField body "params" = none ∨
    ∃ v, getField body "params" = some v ∧ jsTypeIsObject v = true)

/-- Per-event correctness of the `final` flag as the drain loop computes
it: a status event is final iff its carried state is stream-terminal, an
artifact event is never final. -/
def eventFinalCorrect : StreamEvent → Prop
  | .statusEvent _ st f => f = isStreamFinalState st.state
  | .artifactEvent _ _ f => f = false

/-! ### Concrete sample inputs used by witnesses and counterexamples -/

/-- A text part. -/
def textPart (s : String) : Part := { type := "text", text := s }

/-- An artifact update carrying only an index and parts (no append flag,
no name), as in the spec's ordering property P7. -/
def indexedArtifact (i : Int) (ps : List Part) : Artifact :=
  { name := none, description := none, parts := ps, index := some i,
    append := none, lastChunk := none, metadata := none }

/-- A user message. -/
def userMessage : Message := { role := .user, parts := [textPart "hi"] }

/-- An agent message. -/
def agentMessage : Message := { role := .agent, parts := [textPart "what file?"] }

/-- An agent reply used by the C5 witness. -/
def agentReply : Message := { role := .agent, parts := [textPart "done"] }

/-- A working task with an empty artifacts list. -/
def emptySnapshot : TaskAndHistory :=
  { task :=
      { id := "t1"
        sessionId := none
        status := { state := .working, timestamp := 0, message := none }
        artifacts := some []
        metadata := [] }
    history := [] }

/-- A named, indexed artifact (name "alpha", index 0). -/
def namedArtifactAlpha : Artifact :=
  { name := some "alpha", description := none, parts := [textPart "A"], index := some 0,
    append := none, lastChunk := none, metadata := none }

/-- A named, indexed artifact (name "beta", index 2). -/
def namedArtifactBeta : Artifact :=
  { name := some "beta", description := none, parts := [textPart "B"], index := some 2,
    append := none, lastChunk := none, metadata := none }

/-- An artifact update that targets "alpha" by name (its index 5 is out of
bounds for a two-element list) and carries a larger index. -/
def c2Update : Artifact :=
  { name := some "alpha", description := none, parts := [textPart "C"], index := some 5,
    append := none, lastChunk := none, metadata := none }

/-- A snapshot holding the two named artifacts, sorted by index. -/
def c2Snapshot : TaskAndHistory :=
  { task :=
      { id := "t1"
        sessionId := none
        status := { state := .working, timestamp := 0, message := none }
        artifacts := some [namedArtifactAlpha, namedArtifactBeta]
        metadata := [] }
    history := [] }

/-- A cancel world holding one working task "t1" and no flags. -/
def cancelSampleWorld : CancelWorld :=
  { store := [("t1", emptySnapshot)], activeCancellations := [] }

/-- The envelope that separates the code from claim C4: version 2.0, an
EMPTY method string, a null id, and params set to null. -/
def c4Envelope : JsonValue :=
  .objV [("jsonrpc", .strV "2.0"), ("method", .strV ""), ("id", .nullV), ("params", .nullV)]

/-- A snapshot whose status carries an agent message (as a task left in
input-required does) with a one-message history. -/
def c5Snapshot : TaskAndHistory :=
  { task :=
      { id := "t1"
        sessionId := none
        status := { state := .inputRequired, timestamp := 0, message := some agentMessage }
        artifacts := some []
        metadata := [] }
    history := [userMessage] }

/-- A status update with no message key, as loadOrCreateTaskAndHistory's
working transition produces. -/
def c5Update : StatusUpdate := { state := .working, message := none }

/-- A status update carrying an agent message. -/
def c5AgentUpdate : StatusUpdate := { state := .working, message := some (some agentReply) }

/-- A freshly submitted task for streaming runs. -/
def subscribeSnapshot : TaskAndHistory :=
  { task :=
      { id := "t"
        sessionId := none
        status := { state := .submitted, timestamp := 0, message := none }
        artifacts := some []
        metadata := [] }
    history := [userMessage] }

/-- A plain working status update. -/
def workingUpdate : StatusUpdate := { state := .working, message := none }

/-- A completed status update. -/
def completedUpdate : StatusUpdate := { state := .completed, message := none }

/-- A completed task snapshot with a two-message history, for resubmission
and idempotent-cancel runs. -/
def completedSnapshot : TaskAndHistory :=
  { task :=
      { id := "t2"
        sessionId := none
        status := { state := .completed, timestamp := 5, message := some agentMessage }
        artifacts := some []
        metadata := [] }
    history := [userMessage, agentMessage] }

/-- A store holding the completed task "t2". -/
def c8Store : TaskStoreMap := [("t2", completedSnapshot)]

/-- The incoming message of the resubmission runs. -/
def resubmitMessage : Message := { role := .user, parts := [textPart "again"] }

/-- A cancel world whose only task is already completed, with one unrelated
flag present. -/
def finishedWorld : CancelWorld :=
  { store := [("t2", completedSnapshot)], activeCancellations := ["other"] }

/-! ## Claim C1 -/

/-- C1: against the claim, applying an index-2 artifact update and then an
index-0 artifact update to a task with an empty artifacts list does NOT
yield both artifacts sorted: the second update's index 0 is within the
bounds of the one-element array, so it replaces the slot holding the
index-2 artifact, which is gone from the result. -/
theorem C1_counterexample :
    (applyUpdateToTaskAndHistory 2
        (applyUpdateToTaskAndHistory 1 emptySnapshot
          (.artifact (indexedArtifact 2 [textPart "two"])))
        (.artifact (indexedArtifact 0 [textPart "zero"]))).task.artifacts
      = some [indexedArtifact 0 [textPart "zero"]] ∧
    ¬ ∃ a ∈ ((applyUpdateToTaskAndHistory 2
        (applyUpdateToTaskAndHistory 1 emptySnapshot
          (.artifact (indexedArtifact 2 [textPart "two"])))
        (.artifact (indexedArtifact 0 [textPart "zero"]))).task.artifacts).getD [],
      a.index = some 2 := by
  decide

/-- C1 (amended): on an initially empty artifacts list, an index-2 update
followed by an index-0 update leaves exactly one artifact — the index-0
update — because index 0 falls within the bounds of the one-element array
and replaces that slot wholesale. -/
theorem C1_indexZeroReplacesSlotZero (snap : TaskAndHistory)
    (h : snap.task.artifacts = some []) (now1 now2 : Nat) (p2 p0 : List Part) :
    (applyUpdateToTaskAndHistory now2
        (applyUpdateToTaskAndHistory now1 snap (.artifact (indexedArtifact 2 p2)))
        (.artifact (indexedArtifact 0 p0))).task.artifacts
      = some [indexedArtifact 0 p0] := by
  have h1 : applyUpdateToTaskAndHistory now1 snap (.artifact (indexedArtifact 2 p2))
      = { task := { snap.task with artifacts := some [indexedArtifact 2 p2] }
          history := snap.history } := by
    simp [applyUpdateToTaskAndHistory, h, applyArtifactUpdate, pushNewArtifact,
      indexedArtifact, List.insertionSort]
  rw [h1]
  simp [applyUpdateToTaskAndHistory, applyArtifactUpdate, indexedArtifact]

/-- C1 witness: the amended statement at the concrete inputs of the
counterexample. -/
theorem C1_witness :
    (applyUpdateToTaskAndHistory 2
        (applyUpdateToTaskAndHistory 1 emptySnapshot
          (.artifact (indexedArtifact 2 [textPart "two"])))
        (.artifact (indexedArtifact 0 [textPart "zero"]))).task.artifacts
      = some [indexedArtifact 0 [textPart "zero"]] :=
  C1_indexZeroReplacesSlotZero emptySnapshot rfl 1 2 [textPart "two"] [textPart "zero"]

/-! ## Claim C2 -/

/-- When the resolution order finds no slot to replace, the artifact branch
is exactly the push-and-maybe-sort tail. -/
theorem applyArtifactUpdate_of_no_target (artifacts : List Artifact) (update : Artifact)
    (h : artifactHasTarget artifacts update = false) :
    applyArtifactUpdate artifacts update = pushNewArtifact artifacts update := by
  unfold artifactHasTarget at h
  rw [Bool.or_eq_false_iff] at h
  obtain ⟨h1, h2⟩ := h
  rw [decide_eq_false_iff_not] at h1
  unfold applyArtifactUpdate
  rw [dif_neg h1]
  match hn : update.name with
  | none => rfl
  | some updateName =>
    rw [hn] at h2
    rw [Bool.and_eq_false_iff] at h2
    by_cases he : updateName = ""
    · simp [he]
    · rcases h2 with h2 | h2
      · rw [decide_eq_false_iff_not] at h2
        exact absurd he h2
      · rw [Option.not_isSome, Option.isNone_iff_eq_none] at h2
        simp [he, h2]

/-- A pushed list that carries an index is sorted by the stable sort. -/
theorem pushNewArtifact_sorted (artifacts : List Artifact) (update : Artifact)
    (h : (pushNewArtifact artifacts update).any (fun a => a.index.isSome) = true) :
    SortedByIndex (pushNewArtifact artifacts update) := by
  unfold pushNewArtifact at h ⊢
  by_cases hs : (artifacts ++ [update]).any (fun a => a.index.isSome) = true
  · rw [if_pos hs]
    exact List.sorted_insertionSort artifactLE (artifacts ++ [update])
  · rw [if_neg hs] at h
    exact absurd h hs

/-- C2: against the claim, a replacement does not re-sort.  The update
targeting "alpha" by name (its index 5 being out of bounds) overwrites slot
0 of the index-sorted list [alpha@0, beta@2] and leaves [update@5, beta@2],
which carries indices but is not sorted ascending by index. -/
theorem C2_counterexample :
    ((applyUpdateToTaskAndHistory 1 c2Snapshot (.artifact c2Update)).task.artifacts.getD []).any
        (fun a => a.index.isSome) = true ∧
    ¬ SortedByIndex
        ((applyUpdateToTaskAndHistory 1 c2Snapshot (.artifact c2Update)).task.artifacts.getD []) := by
  constructor
  · decide
  · unfold SortedByIndex
    decide

/-- C2 (amended): the re-sort happens only on the append path.  After an
artifact update that found no index or name target (so the update was
pushed as a new artifact), if any artifact in the resulting list carries an
index, the whole resulting artifacts list is sorted ascending by index with
an absent index ordering as 0; a replacement by index or by name rewrites
the slot in place and may leave the list unsorted. -/
theorem C2_sortedOnAppendOnly (now : Nat) (snap : TaskAndHistory) (u : Artifact)
    (hTarget : artifactHasTarget (snap.task.artifacts.getD []) u = false)
    (hIdx : ((applyUpdateToTaskAndHistory now snap (.artifact u)).task.artifacts.getD []).any
        (fun a => a.index.isSome) = true) :
    SortedByIndex ((applyUpdateToTaskAndHistory now snap (.artifact u)).task.artifacts.getD []) := by
  have hrun : (applyUpdateToTaskAndHistory now snap (.artifact u)).task.artifacts.getD []
      = pushNewArtifact (snap.task.artifacts.getD []) u := by
    simp [applyUpdateToTaskAndHistory, applyArtifactUpdate_of_no_target _ _ hTarget]
  rw [hrun] at hIdx ⊢
  exact pushNewArtifact_sorted _ _ hIdx

/-- C2 witness: the amended statement at a concrete input — appending an
index-3 artifact to the empty list yields a sorted singleton. -/
theorem C2_witness :
    SortedByIndex ((applyUpdateToTaskAndHistory 5 emptySnapshot
        (.artifact (indexedArtifact 3 [textPart "w"]))).task.artifacts.getD []) :=
  C2_sortedOnAppendOnly 5 emptySnapshot (indexedArtifact 3 [textPart "w"]) rfl (by decide)

/-! ## Claim C3 -/

/-- C3: against the claim, the cancellation flag is NOT cleared on every
exit path.  On a world holding the working task "t1", a taskCancel whose
store save fails propagates the failure with "t1" still present in the
cancellation-flag set: the delete statement sits after the save and never
runs. -/
theorem C3_counterexample :
    (taskCancel false 9 "t1" cancelSampleWorld).1 = CancelOutcome.saveFailed ∧
    "t1" ∈ (taskCancel false 9 "t1" cancelSampleWorld).2.activeCancellations := by
  decide

/-- C3 (amended): on a non-terminal task the flag is cleared exactly when
the save of the canceled snapshot succeeds; when the save raises, taskCancel
propagates the failure and the flag that was added before the save is still
set when taskCancel finishes. -/
theorem C3_flagClearedOnlyOnSaveSuccess (saveOk : Bool) (now : Nat) (taskId : String)
    (w : CancelWorld) (data : TaskAndHistory)
    (hLoad : storeLoad w.store taskId = some data)
    (hState : isFinalState data.task.status.state = false) :
    (saveOk = true → taskId ∉ (taskCancel saveOk now taskId w).2.activeCancellations) ∧
    (saveOk = false → (taskCancel saveOk now taskId w).1 = CancelOutcome.saveFailed ∧
      taskId ∈ (taskCancel saveOk now taskId w).2.activeCancellations) := by
  unfold taskCancel
  rw [hLoad]
  simp only [hState, Bool.false_eq_true, if_false]
  cases saveOk
  · refine ⟨fun h => absurd h (by simp), fun _ => ⟨rfl, ?_⟩⟩
    show taskId ∈ cancellationsAdd w.activeCancellations taskId
    unfold cancellationsAdd
    by_cases hmem : taskId ∈ w.activeCancellations
    · rw [if_pos hmem]; exact hmem
    · rw [if_neg hmem]; exact List.mem_append_right _ (List.mem_singleton.mpr rfl)
  · refine ⟨fun _ => ?_, fun h => absurd h (by simp)⟩
    show taskId ∉ cancellationsDelete (cancellationsAdd w.activeCancellations taskId) taskId
    unfold cancellationsDelete
    intro hmem
    rcases List.mem_filter.mp hmem with ⟨-, hne⟩
    simp at hne

/-- C3 witness: the amended statement on the sample world, for the failing
save (flag left set) and for the successful save (flag cleared). -/
theorem C3_witness :
    ("t1" ∉ (taskCancel true 9 "t1" cancelSampleWorld).2.activeCancellations) ∧
    ("t1" ∈ (taskCancel false 9 "t1" cancelSampleWorld).2.activeCancellations) :=
  ⟨(C3_flagClearedOnlyOnSaveSuccess true 9 "t1" cancelSampleWorld emptySnapshot rfl rfl).1 rfl,
   ((C3_flagClearedOnlyOnSaveSuccess false 9 "t1" cancelSampleWorld emptySnapshot rfl rfl).2 rfl).2⟩

/-! ## Claim C4 -/

/-- C4: against the claim, isValidJsonRpcRequest accepts the envelope
`{jsonrpc: "2.0", method: "", id: null, params: null}` even though its
method is the empty string and its params is null, a primitive: the code
checks only `typeof method === 'string'` and `typeof params === 'object'`,
which null satisfies. -/
theorem C4_counterexample :
    isValidJsonRpcRequest c4Envelope = true ∧ ¬ claimC4Accepts c4Envelope := by
  refine ⟨rfl, ?_⟩
  rintro ⟨-, ⟨s, hs, hne⟩, -, -⟩
  have h0 : (some (JsonValue.strV "") : Option JsonValue) = some (.strV s) := hs
  simp only [Option.some.injEq, JsonValue.strV.injEq] at h0
  exact hne h0.symm

/-- Componentwise reading of the version check. -/
theorem jsonrpcIsTwoPointZero_iff (o : Option JsonValue) :
    jsonrpcIsTwoPointZero o = true ↔ o = some (.strV "2.0") := by
  match o with
  | none => simp [jsonrpcIsTwoPointZero]
  | some .nullV => simp [jsonrpcIsTwoPointZero]
  | some (.boolV b) => simp [jsonrpcIsTwoPointZero]
  | some (.numV n) => simp [jsonrpcIsTwoPointZero]
  | some (.strV s) => simp [jsonrpcIsTwoPointZero]
  | some (.arrV xs) => simp [jsonrpcIsTwoPointZero]
  | some (.objV fs) => simp [jsonrpcIsTwoPointZero]

/-- Componentwise reading of the method check. -/
theorem isJsonString_iff (o : Option JsonValue) :
    isJsonString o = true ↔ ∃ s, o = some (.strV s) := by
  match o with
  | none => simp [isJsonString]
  | some .nullV => simp [isJsonString]
  | some (.boolV b) => simp [isJsonString]
  | some (.numV n) => simp [isJsonString]
  | some (.strV s) => simp [isJsonString]
  | some (.arrV xs) => simp [isJsonString]
  | some (.objV fs) => simp [isJsonString]

/-- Componentwise reading of the id check. -/
theorem isValidRequestId_iff (o : Option JsonValue) :
    isValidRequestId o = true ↔
      o = some .nullV ∨ (∃ s, o = some (.strV s)) ∨ (∃ n, o = some (.numV n)) := by
  match o with
  | none => simp [isValidRequestId]
  | some .nullV => simp [isValidRequestId]
  | some (.boolV b) => simp [isValidRequestId]
  | some (.numV n) => simp [isValidRequestId]
  | some (.strV s) => simp [isValidRequestId]
  | some (.arrV xs) => simp [isValidRequestId]
  | some (.objV fs) => simp [isValidRequestId]

/-- Componentwise reading of the params check. -/
theorem isValidParams_iff (o : Option JsonValue) :
    isValidParams o = true ↔ o = none ∨ ∃ v, o = some v ∧ jsTypeIsObject v = true := by
  match o with
  | none => simp [isValidParams]
  | some v => simp [isValidParams]

/-- C4 (amended): isValidJsonRpcRequest accepts an envelope iff it is a
non-null object, its version tag equals "2.0", its method is a string — the
empty string included — its id is a string, a number, or null, and its
params, when present, is of JavaScript object type: an object, an array, or
null. -/
theorem C4_acceptanceCharacterization (body : JsonValue) :
    isValidJsonRpcRequest body = true ↔ amendedValidRequest body := by
  unfold isValidJsonRpcRequest amendedValidRequest
  rw [Bool.and_eq_true, Bool.and_eq_true, Bool.and_eq_true, Bool.and_eq_true]
  rw [jsonrpcIsTwoPointZero_iff, isJsonString_iff, isValidRequestId_iff, isValidParams_iff]
  tauto

/-- C4 witness: the characterization applied to the concrete envelope the
counterexample uses. -/
theorem C4_witness : amendedValidRequest c4Envelope :=
  (C4_acceptanceCharacterization c4Envelope).mp rfl

/-! ## Claim C5 -/

/-- C5: against the claim, the history append is keyed on the update's own
message, not on the merged message.  A status update with no message key
applied to a snapshot whose existing status message is an agent message
leaves that agent message as the merged status message, yet appends nothing
to history. -/
theorem C5_counterexample :
    (applyUpdateToTaskAndHistory 1 c5Snapshot (.status c5Update)).task.status.message
      = some agentMessage ∧
    agentMessage.role = Role.agent ∧
    (applyUpdateToTaskAndHistory 1 c5Snapshot (.status c5Update)).history = [userMessage] ∧
    (applyUpdateToTaskAndHistory 1 c5Snapshot (.status c5Update)).history.getLast?
      ≠ some agentMessage := by
  refine ⟨rfl, rfl, rfl, by decide⟩

/-- C5 (amended): the status branch merges the update onto the existing
status with the update's fields winning — a message key that is absent
keeps the existing message — overwrites the timestamp with the current time
unconditionally, and appends the UPDATE'S message to history exactly when
the update carries a message with role agent; a pre-existing agent message
merely kept by the merge is not re-appended. -/
theorem C5_statusMergeCharacterization (now : Nat) (snap : TaskAndHistory) (u : StatusUpdate) :
    (applyUpdateToTaskAndHistory now snap (.status u)).task.status.state = u.state ∧
    (applyUpdateToTaskAndHistory now snap (.status u)).task.status.timestamp = now ∧
    (u.message = none →
      (applyUpdateToTaskAndHistory now snap (.status u)).task.status.message
        = snap.task.status.message) ∧
    (∀ m, u.message = some m →
      (applyUpdateToTaskAndHistory now snap (.status u)).task.status.message = m) ∧
    (∀ m, u.message = some (some m) → m.role = Role.agent →
      (applyUpdateToTaskAndHistory now snap (.status u)).history = snap.history ++ [m]) ∧
    ((∀ m, u.message = some (some m) → m.role ≠ Role.agent) →
      (applyUpdateToTaskAndHistory now snap (.status u)).history = snap.history) := by
  obtain ⟨st, msg⟩ := u
  match msg with
  | none =>
    refine ⟨rfl, rfl, fun _ => rfl, ?_, ?_, fun _ => rfl⟩
    · intro m hm
      injection hm
    · intro m hm
      injection hm
  | some none =>
    refine ⟨rfl, rfl, ?_, ?_, ?_, fun _ => rfl⟩
    · intro h
      injection h
    · intro m hm
      injection hm with h1
    · intro m hm
      injection hm with h1
      injection h1
  | some (some m) =>
    refine ⟨rfl, rfl, ?_, ?_, ?_, ?_⟩
    · intro h
      injection h
    · intro m2 hm
      injection hm with h1
    · intro m2 hm hrole
      injection hm with h1
      injection h1 with h2
      subst h2
      show (if m.role = Role.agent then snap.history ++ [m] else snap.history)
        = snap.history ++ [m]
      rw [if_pos hrole]
    · intro hall
      have hne : m.role ≠ Role.agent := hall m rfl
      show (if m.role = Role.agent then snap.history ++ [m] else snap.history) = snap.history
      rw [if_neg hne]

/-- C5 witness: the amended statement on a concrete snapshot and an update
carrying an agent message, which is appended to history. -/
theorem C5_witness :
    (applyUpdateToTaskAndHistory 4 c5Snapshot (.status c5AgentUpdate)).history
      = c5Snapshot.history ++ [agentReply] :=
  (C5_statusMergeCharacterization 4 c5Snapshot c5AgentUpdate).2.2.2.2.1 agentReply rfl rfl

/-! ## Claims C6 and C7: the streaming drain loop -/

/-- Every event the drain loop emits carries the final flag the code
computes: status events are final iff the carried post-update state is
stream-terminal, artifact events are never final. -/
theorem taskSendSubscribeLoop_eventFinalCorrect (taskId : String) (updates : List Update) :
    ∀ (clock : Nat) (data : TaskAndHistory),
      ∀ e ∈ (taskSendSubscribeLoop taskId clock data updates).events, eventFinalCorrect e := by
  induction updates with
  | nil =>
    intro clock data e he
    simp [taskSendSubscribeLoop] at he
  | cons u rest ih =>
    intro clock data e he
    match u with
    | .status su =>
      by_cases hf : isStreamFinalState
          (applyUpdateToTaskAndHistory clock data (.status su)).task.status.state = true
      · simp only [taskSendSubscribeLoop, hf, if_true, List.mem_singleton] at he
        subst he
        exact hf.symm
      · simp only [taskSendSubscribeLoop, hf, if_false, List.mem_cons, Bool.false_eq_true] at he
        rcases he with he | he
        · subst he
          simp only [Bool.not_eq_true] at hf
          exact hf.symm
        · exact ih (clock + 1) _ e he
    | .artifact a =>
      simp only [taskSendSubscribeLoop, List.mem_cons] at he
      rcases he with he | he
      · subst he
        rfl
      · exact ih (clock + 1) _ e he

/-- Shape of the drain loop's event list: when no final event was sent every
event is non-final, and when one was sent the event list is some non-final
events followed by exactly one final event. -/
theorem taskSendSubscribeLoop_final_structure (taskId : String) (updates : List Update) :
    ∀ (clock : Nat) (data : TaskAndHistory),
      ((taskSendSubscribeLoop taskId clock data updates).lastEventWasFinal = false →
        ∀ e ∈ (taskSendSubscribeLoop taskId clock data updates).events, e.final = false) ∧
      ((taskSendSubscribeLoop taskId clock data updates).lastEventWasFinal = true →
        ∃ l e, (taskSendSubscribeLoop taskId clock data updates).events = l ++ [e] ∧
          (∀ x ∈ l, x.final = false) ∧ e.final = true) := by
  induction updates with
  | nil =>
    intro clock data
    constructor
    · intro _ e he
      simp [taskSendSubscribeLoop] at he
    · intro h
      simp [taskSendSubscribeLoop] at h
  | cons u rest ih =>
    intro clock data
    match u with
    | .status su =>
      by_cases hf : isStreamFinalState
          (applyUpdateToTaskAndHistory clock data (.status su)).task.status.state = true
      · constructor
        · intro h
          simp only [taskSendSubscribeLoop, hf, if_true] at h
          exact absurd h (by decide)
        · intro _
          refine ⟨[], createTaskStatusEvent taskId
            (applyUpdateToTaskAndHistory clock data (.status su)).task.status
            (isStreamFinalState
              (applyUpdateToTaskAndHistory clock data (.status su)).task.status.state), ?_, ?_, ?_⟩
          · simp only [taskSendSubscribeLoop, hf, if_true, List.nil_append]
          · intro x hx
            simp at hx
          · exact hf
      · constructor
        · intro h e he
          simp only [taskSendSubscribeLoop, hf, if_false, Bool.false_eq_true,
            List.mem_cons] at h he
          rcases he with he | he
          · subst he
            rfl
          · exact ((ih (clock + 1) _).1 h) e he
        · intro h
          simp only [taskSendSubscribeLoop, hf, if_false, Bool.false_eq_true] at h ⊢
          obtain ⟨l, e, hev, hl, hfin⟩ := (ih (clock + 1) _).2 h
          refine ⟨createTaskStatusEvent taskId
            (applyUpdateToTaskAndHistory clock data (.status su)).task.status
            (isStreamFinalState
              (applyUpdateToTaskAndHistory clock data (.status su)).task.status.state) :: l,
            e, ?_, ?_, hfin⟩
          · simp [taskSendSubscribeLoop, hf, hev]
          · intro x hx
            rcases List.mem_cons.mp hx with hx | hx
            · subst hx
              simp only [Bool.not_eq_true] at hf
              exact hf
            · exact hl x hx
    | .artifact a =>
      constructor
      · intro h e he
        simp only [taskSendSubscribeLoop, List.mem_cons] at h he
        rcases he with he | he
        · subst he
          rfl
        · exact ((ih (clock + 1) _).1 h) e he
      · intro h
        simp only [taskSendSubscribeLoop] at h ⊢
        obtain ⟨l, e, hev, hl, hfin⟩ := (ih (clock + 1) _).2 h
        refine ⟨createTaskArtifactEvent taskId
          (findUpdatedArtifact
            ((applyUpdateToTaskAndHistory clock data (.artifact a)).task.artifacts.getD []) a)
          false :: l, e, ?_, ?_, hfin⟩
        · simp [taskSendSubscribeLoop, hev]
        · intro x hx
          rcases List.mem_cons.mp hx with hx | hx
          · subst hx
            rfl
          · exact hl x hx

/-- Once a final event has been sent, later yields change nothing: the run
on an extended update sequence equals the run on the prefix that produced
the final event. -/
theorem taskSendSubscribeLoop_stops_after_final (taskId : String) (updates1 : List Update) :
    ∀ (updates2 : List Update) (clock : Nat) (data : TaskAndHistory),
      (taskSendSubscribeLoop taskId clock data updates1).lastEventWasFinal = true →
      taskSendSubscribeLoop taskId clock data (updates1 ++ updates2)
        = taskSendSubscribeLoop taskId clock data updates1 := by
  induction updates1 with
  | nil =>
    intro updates2 clock data h
    simp [taskSendSubscribeLoop] at h
  | cons u rest ih =>
    intro updates2 clock data h
    match u with
    | .status su =>
      by_cases hf : isStreamFinalState
          (applyUpdateToTaskAndHistory clock data (.status su)).task.status.state = true
      · show taskSendSubscribeLoop taskId clock data (.status su :: (rest ++ updates2)) = _
        simp only [taskSendSubscribeLoop, hf, if_true]
      · simp only [List.cons_append, taskSendSubscribeLoop, hf, if_false, Bool.false_eq_true,
          List.append_eq] at h ⊢
        rw [ih updates2 (clock + 1) _ h]
    | .artifact a =>
      simp only [List.cons_append, taskSendSubscribeLoop, List.append_eq] at h ⊢
      rw [ih updates2 (clock + 1) _ h]

/-- C6: in taskSendSubscribe's drain loop, every artifact event has
final=false; every status event has final=true iff the post-update state it
carries is in {completed, failed, canceled, input-required}; every event
before the last one is non-final (the loop breaks as soon as a final event
is sent); and once a final event has been sent, any further updates the
handler would yield leave the run unchanged. -/
theorem C6_streamEventFlags (taskId : String) (clock : Nat) (data : TaskAndHistory)
    (updates : List Update) :
    (∀ e ∈ (taskSendSubscribeLoop taskId clock data updates).events,
      ∀ i a f, e = StreamEvent.artifactEvent i a f → f = false) ∧
    (∀ e ∈ (taskSendSubscribeLoop taskId clock data updates).events,
      ∀ i st f, e = StreamEvent.statusEvent i st f →
        (f = true ↔ st.state ∈ streamTerminalStates)) ∧
    (∀ e ∈ (taskSendSubscribeLoop taskId clock data updates).events.dropLast,
      e.final = false) ∧
    (∀ updates2, (taskSendSubscribeLoop taskId clock data updates).lastEventWasFinal = true →
      taskSendSubscribeLoop taskId clock data (updates ++ updates2)
        = taskSendSubscribeLoop taskId clock data updates) := by
  refine ⟨?_, ?_, ?_, ?_⟩
  · intro e he i a f hef
    have := taskSendSubscribeLoop_eventFinalCorrect taskId updates clock data e he
    rw [hef] at this
    exact this
  · intro e he i st f hef
    have := taskSendSubscribeLoop_eventFinalCorrect taskId updates clock data e he
    rw [hef] at this
    show f = true ↔ st.state ∈ streamTerminalStates
    rw [this]
    unfold isStreamFinalState
    exact decide_eq_true_iff
  · intro e he
    rcases hlf : (taskSendSubscribeLoop taskId clock data updates).lastEventWasFinal with _ | _
    · exact (taskSendSubscribeLoop_final_structure taskId updates clock data).1 hlf e
        (List.dropLast_sublist _ |>.subset he)
    · obtain ⟨l, elast, hev, hl, -⟩ :=
        (taskSendSubscribeLoop_final_structure taskId updates clock data).2 hlf
      rw [hev, List.dropLast_concat] at he
      exact hl e he
  · intro updates2 h
    exact taskSendSubscribeLoop_stops_after_final taskId updates updates2 clock data h

/-- C6 witness: the stop conjunct on a concrete run — a completed update
followed by a working update produces the same run as the completed update
alone. -/
theorem C6_witness :
    taskSendSubscribeLoop "t" 1 subscribeSnapshot
        ([Update.status completedUpdate] ++ [Update.status workingUpdate])
      = taskSendSubscribeLoop "t" 1 subscribeSnapshot [Update.status completedUpdate] :=
  (C6_streamEventFlags "t" 1 subscribeSnapshot [Update.status completedUpdate]).2.2.2
    [Update.status workingUpdate] rfl

/-- C7: when the drain loop exhausts the handler's updates without a final
event, the engine force-finalizes.  Every drained event was non-final; the
outbound events are the drained ones plus exactly one final status event
carrying the status the task ends in; when the post-drain state is not
stream-terminal a synthetic completed transition is applied and persisted
(so the final event carries state completed); when it already is
stream-terminal nothing further is persisted. -/
theorem C7_forcedFinalization (taskId : String) (clock : Nat) (data : TaskAndHistory)
    (updates : List Update)
    (h : (taskSendSubscribeLoop taskId clock data updates).lastEventWasFinal = false) :
    (taskSendSubscribeRun taskId clock data updates).events
      = (taskSendSubscribeLoop taskId clock data updates).events
        ++ [createTaskStatusEvent taskId
              (taskSendSubscribeRun taskId clock data updates).data.task.status true] ∧
    (∀ e ∈ (taskSendSubscribeLoop taskId clock data updates).events, e.final = false) ∧
    (isStreamFinalState
        (taskSendSubscribeLoop taskId clock data updates).data.task.status.state = false →
      (taskSendSubscribeRun taskId clock data updates).data
        = applyUpdateToTaskAndHistory (taskSendSubscribeLoop taskId clock data updates).clock
            (taskSendSubscribeLoop taskId clock data updates).data
            (.status { state := .completed, message := none }) ∧
      (taskSendSubscribeRun taskId clock data updates).data.task.status.state
        = TaskState.completed ∧
      (taskSendSubscribeRun taskId clock data updates).saves
        = (taskSendSubscribeLoop taskId clock data updates).saves
          ++ [(taskSendSubscribeRun taskId clock data updates).data]) ∧
    (isStreamFinalState
        (taskSendSubscribeLoop taskId clock data updates).data.task.status.state = true →
      (taskSendSubscribeRun taskId clock data updates).data
        = (taskSendSubscribeLoop taskId clock data updates).data ∧
      (taskSendSubscribeRun taskId clock data updates).saves
        = (taskSendSubscribeLoop taskId clock data updates).saves) := by
  by_cases hterm : isStreamFinalState
      (taskSendSubscribeLoop taskId clock data updates).data.task.status.state = true
  · have hrun : taskSendSubscribeRun taskId clock data updates
        = { taskSendSubscribeLoop taskId clock data updates with
            events := (taskSendSubscribeLoop taskId clock data updates).events
              ++ [createTaskStatusEvent taskId
                    (taskSendSubscribeLoop taskId clock data updates).data.task.status true]
            lastEventWasFinal := true } := by
      unfold taskSendSubscribeRun
      rw [if_neg (by simp [h]), if_pos hterm]
    refine ⟨?_, (taskSendSubscribeLoop_final_structure taskId updates clock data).1 h, ?_, ?_⟩
    · rw [hrun]
    · intro hne
      rw [hterm] at hne
      exact absurd hne (by decide)
    · intro _
      rw [hrun]
      exact ⟨rfl, rfl⟩
  · have hrun : taskSendSubscribeRun taskId clock data updates
        = { data := applyUpdateToTaskAndHistory
              (taskSendSubscribeLoop taskId clock data updates).clock
              (taskSendSubscribeLoop taskId clock data updates).data
              (.status { state := .completed, message := none })
            events := (taskSendSubscribeLoop taskId clock data updates).events
              ++ [createTaskStatusEvent taskId
                    (applyUpdateToTaskAndHistory
                      (taskSendSubscribeLoop taskId clock data updates).clock
                      (taskSendSubscribeLoop taskId clock data updates).data
                      (.status { state := .completed, message := none })).task.status true]
            lastEventWasFinal := true
            saves := (taskSendSubscribeLoop taskId clock data updates).saves
              ++ [applyUpdateToTaskAndHistory
                    (taskSendSubscribeLoop taskId clock data updates).clock
                    (taskSendSubscribeLoop taskId clock data updates).data
                    (.status { state := .completed, message := none })]
            clock := (taskSendSubscribeLoop taskId clock data updates).clock + 1 } := by
      unfold taskSendSubscribeRun
      rw [if_neg (by simp [h]), if_neg (by simp [hterm])]
    refine ⟨?_, (taskSendSubscribeLoop_final_structure taskId updates clock data).1 h, ?_, ?_⟩
    · rw [hrun]
    · intro _
      rw [hrun]
      exact ⟨rfl, rfl, rfl⟩
    · intro habs
      exact absurd habs hterm

/-- C7 witness: the spec's P9 instance — a handler yielding only
{state: working} produces the drained non-final working event plus a
synthesized final {state: completed} event, persisted as such. -/
theorem C7_witness :
    (taskSendSubscribeRun "t" 1 subscribeSnapshot [Update.status workingUpdate]).data.task.status.state
      = TaskState.completed ∧
    (taskSendSubscribeRun "t" 1 subscribeSnapshot [Update.status workingUpdate]).events
      = (taskSendSubscribeLoop "t" 1 subscribeSnapshot [Update.status workingUpdate]).events
        ++ [createTaskStatusEvent "t"
              (taskSendSubscribeRun "t" 1 subscribeSnapshot
                [Update.status workingUpdate]).data.task.status true] :=
  ⟨((C7_forcedFinalization "t" 1 subscribeSnapshot [Update.status workingUpdate] rfl).2.2.1
      rfl).2.1,
   (C7_forcedFinalization "t" 1 subscribeSnapshot [Update.status workingUpdate] rfl).1⟩

/-! ## Claims C8 and C9 -/

/-- Saving a snapshot and loading its task id returns that snapshot. -/
theorem storeLoad_storeSave_self (s : TaskStoreMap) (d : TaskAndHistory) :
    storeLoad (storeSave s d) d.task.id = some d := by
  unfold storeSave
  by_cases hany : s.any (fun p => p.1 = d.task.id) = true
  · rw [if_pos hany]
    induction s with
    | nil => simp at hany
    | cons p t iht =>
      by_cases hp : p.1 = d.task.id
      · unfold storeLoad
        simp [hp]
      · unfold storeLoad
        rw [List.map_cons, List.find?_cons_of_neg _ (by simp [hp])]
        have htail : t.any (fun p => p.1 = d.task.id) = true := by
          rcases List.any_eq_true.mp hany with ⟨x, hx, hxe⟩
          rcases List.mem_cons.mp hx with hx | hx
          · subst hx
            exact absurd (of_decide_eq_true hxe) hp
          · exact List.any_eq_true.mpr ⟨x, hx, hxe⟩
        exact iht htail
  · rw [if_neg hany]
    unfold storeLoad
    rw [List.find?_append]
    have hnone : s.find? (fun p => p.1 = d.task.id) = none := by
      rw [List.find?_eq_none]
      intro x hx
      intro hxe
      exact hany (List.any_eq_true.mpr ⟨x, hx, hxe⟩)
    rw [hnone]
    simp

/-- C8: an incoming message for an existing task in a terminal state resets
the state to submitted, clears the status message, appends the message to
the preserved history, and persists the resulting snapshot. -/
theorem C8_terminalResubmission (now : Nat) (store : TaskStoreMap) (taskId : String)
    (msg : Message) (sessionId : Option String) (metadata : Option Metadata)
    (prev : TaskAndHistory)
    (hLoad : storeLoad store taskId = some prev)
    (hId : prev.task.id = taskId)
    (hFinal : isFinalState prev.task.status.state = true) :
    (loadOrCreateTaskAndHistory now store taskId msg sessionId metadata).1.task.status.state
      = TaskState.submitted ∧
    (loadOrCreateTaskAndHistory now store taskId msg sessionId metadata).1.task.status.message
      = none ∧
    (loadOrCreateTaskAndHistory now store taskId msg sessionId metadata).1.history
      = prev.history ++ [msg] ∧
    storeLoad (loadOrCreateTaskAndHistory now store taskId msg sessionId metadata).2 taskId
      = some (loadOrCreateTaskAndHistory now store taskId msg sessionId metadata).1 := by
  have hrun : loadOrCreateTaskAndHistory now store taskId msg sessionId metadata
      = (applyUpdateToTaskAndHistory now
           { task := prev.task, history := prev.history ++ [msg] }
           (.status { state := .submitted, message := some none }),
         storeSave store (applyUpdateToTaskAndHistory now
           { task := prev.task, history := prev.history ++ [msg] }
           (.status { state := .submitted, message := some none }))) := by
    unfold loadOrCreateTaskAndHistory
    rw [hLoad]
    simp only [hFinal, if_true]
  rw [hrun]
  refine ⟨rfl, rfl, rfl, ?_⟩
  have hid2 : (applyUpdateToTaskAndHistory now
      { task := prev.task, history := prev.history ++ [msg] }
      (.status { state := .submitted, message := some none })).task.id = taskId := hId
  rw [← hid2]
  exact storeLoad_storeSave_self store _

/-- C8 witness: resubmitting to the completed task "t2" yields state
submitted, a cleared status message, and the old history plus the new
message, persisted. -/
theorem C8_witness :
    (loadOrCreateTaskAndHistory 9 c8Store "t2" resubmitMessage none none).1.task.status.state
      = TaskState.submitted ∧
    (loadOrCreateTaskAndHistory 9 c8Store "t2" resubmitMessage none none).1.task.status.message
      = none ∧
    (loadOrCreateTaskAndHistory 9 c8Store "t2" resubmitMessage none none).1.history
      = completedSnapshot.history ++ [resubmitMessage] :=
  ⟨(C8_terminalResubmission 9 c8Store "t2" resubmitMessage none none completedSnapshot
      rfl rfl rfl).1,
   (C8_terminalResubmission 9 c8Store "t2" resubmitMessage none none completedSnapshot
      rfl rfl rfl).2.1,
   (C8_terminalResubmission 9 c8Store "t2" resubmitMessage none none completedSnapshot
      rfl rfl rfl).2.2.1⟩

/-- C9: taskCancel on a task already in a terminal state is a successful
no-op: it returns the loaded task unchanged and leaves the whole world —
the task store and the cancellation-flag set — untouched. -/
theorem C9_cancelTerminalNoOp (saveOk : Bool) (now : Nat) (taskId : String) (w : CancelWorld)
    (data : TaskAndHistory)
    (hLoad : storeLoad w.store taskId = some data)
    (hFinal : isFinalState data.task.status.state = true) :
    taskCancel saveOk now taskId w = (CancelOutcome.success data.task, w) := by
  unfold taskCancel
  rw [hLoad]
  simp only [hFinal, if_true]

/-- C9 witness: cancelling the completed task "t2" returns it unchanged and
leaves the world as it was. -/
theorem C9_witness :
    taskCancel true 3 "t2" finishedWorld
      = (CancelOutcome.success completedSnapshot.task, finishedWorld) :=
  C9_cancelTerminalNoOp true 3 "t2" finishedWorld completedSnapshot rfl rfl

end A2A
